import Mathlib

/-!
Shallow embedding of the chatbot pipeline core of the `bot` repository:
the rule-based NLP processor (`src/server/nlp/simple-processor.ts`), the two
response generators (`MLTrainer.generateResponse` and
`SimpleMLTrainer.generateResponse` in `src/server/nlp/trainer.ts`), the
in-memory record store (`MemStorage` in `src/server/routes.ts`), the Telegram
channel adapter (`src/server/platforms/telegram.ts`), and the WebSocket
fan-out manager (`WebSocketManager` in `src/server/routes.ts`).

Conventions of the embedding:
* JavaScript numbers carrying fractional values (classifier confidence,
  thresholds) are modelled as `Rat`; millisecond durations and timestamps as
  `Int`; record ids and counters as `Nat`.
* JavaScript `null`/`undefined` is `Option`.
* Strings are ASCII in all inputs of interest; `toLowerCase` is modelled by
  mapping `Char.toLower`.
* The write-only `createdAt`/`updatedAt` bookkeeping stamps of `MemStorage`
  are elided; `sentAt`/`lastMessageAt` stamps (observed by queries) are kept,
  drawn from a logical clock in the store that advances on message creation.
* `Map<number, T>` tables of `MemStorage` are modelled as lists in insertion
  order; `map.set(id, x)` on an existing key is modelled by rewriting every
  list entry with that id (under the store invariant that ids are unique the
  two readings agree).
-/

deriving instance DecidableEq for Except

namespace Bot

/-! ### String helpers mirroring the JavaScript primitives -/

/-- JS `String.prototype.toLowerCase`, restricted to ASCII. -/
def jsToLower (s : String) : String := ⟨s.data.map Char.toLower⟩

/-- Is `pat` a prefix of `l`? (Bool version over characters.) -/
def prefixMatches : List Char → List Char → Bool
  | [], _ => true
  | _ :: _, [] => false
  | p :: ps, c :: cs => p == c && prefixMatches ps cs

/-- Does `l` contain `pat` as a contiguous substring?  Mirrors JS
`String.prototype.includes` (empty pattern matches everywhere). -/
def charsIncludes (pat : List Char) : List Char → Bool
  | [] => pat.isEmpty
  | c :: cs => prefixMatches pat (c :: cs) || charsIncludes pat cs

/-- JS `hay.includes(needle)`. -/
def strIncludes (hay needle : String) : Bool :=
  charsIncludes needle.data hay.data

/-- Replace the first occurrence of `pat` in `l` by `repl`; identity when
`pat` does not occur.  Mirrors JS `String.prototype.replace` with a string
pattern, which substitutes only the first occurrence. -/
def replaceFirstChars (pat repl : List Char) : List Char → List Char
  | [] => if pat.isEmpty then repl else []
  | c :: cs =>
    if prefixMatches pat (c :: cs) then repl ++ (c :: cs).drop pat.length
    else c :: replaceFirstChars pat repl cs

/-- JS `s.replace(pat, repl)` (first occurrence only). -/
def replaceFirst (s pat repl : String) : String :=
  ⟨replaceFirstChars pat.data repl.data s.data⟩

/-- ASCII whitespace, as far as JS `trim` meets it in this code base. -/
def isWsChar (c : Char) : Bool := c == ' ' || c == '\t' || c == '\n' || c == '\r'

/-- JS `String.prototype.trim` (structural version over characters). -/
def jsTrim (s : String) : String :=
  ⟨((s.data.dropWhile isWsChar).reverse.dropWhile isWsChar).reverse⟩

/-- Split a character list at every occurrence of `sep` (JS
`split(sep)` for a single-character separator: keeps empty fields). -/
def splitOnChar (sep : Char) : List Char → List (List Char)
  | [] => [[]]
  | c :: cs =>
    let rest := splitOnChar sep cs
    if c == sep then [] :: rest
    else
      match rest with
      | [] => [[c]]
      | r :: rs => (c :: r) :: rs

/-- JS `s.split(' ')`. -/
def jsSplitSpace (s : String) : List String :=
  (splitOnChar ' ' s.data).map (fun l => ⟨l⟩)

/-! ### `SimpleNLPProcessor` (`src/server/nlp/simple-processor.ts`) -/

/-- Result record of `SimpleNLPProcessor.processMessage`. -/
structure ProcessedMessage where
  intent : String
  entities : List (String × String)
  sentiment : String
  confidence : Rat
  keywords : List String
  deriving Repr, DecidableEq

/-- Source `SimpleNLPProcessor.classifyIntent`: ordered keyword-based rules. -/
def classifyIntent (message : String) : String :=
  if strIncludes message "hello" || strIncludes message "hi" || strIncludes message "hey" then
    "greeting"
  else if strIncludes message "help" || strIncludes message "support" then
    "help_request"
  else if strIncludes message "thank" || strIncludes message "thanks" then
    "gratitude"
  else if strIncludes message "bye" || strIncludes message "goodbye" then
    "farewell"
  else if strIncludes message "price" || strIncludes message "cost" || strIncludes message "payment" then
    "pricing_inquiry"
  else if strIncludes message "delivery" || strIncludes message "shipping" then
    "delivery_inquiry"
  else
    "general_inquiry"

/-- Fixed positive-word list of `analyzeSentiment`. -/
def positiveWords : List String :=
  ["good", "great", "excellent", "amazing", "wonderful", "love", "like", "happy", "pleased"]

/-- Fixed negative-word list of `analyzeSentiment`. -/
def negativeWords : List String :=
  ["bad", "terrible", "awful", "hate", "dislike", "angry", "frustrated", "disappointed"]

/-- Source `SimpleNLPProcessor.analyzeSentiment`. -/
def analyzeSentiment (text : String) : String :=
  let words := jsSplitSpace text
  let positiveCount := (words.filter (fun w => positiveWords.contains w)).length
  let negativeCount := (words.filter (fun w => negativeWords.contains w)).length
  if positiveCount > negativeCount then "positive"
  else if negativeCount > positiveCount then "negative"
  else "neutral"

/-- Stop-word list of `extractKeywords`. -/
def stopWords : List String :=
  ["the", "is", "at", "which", "on", "a", "an", "and", "or", "but", "in", "with",
   "to", "for", "of", "as", "by", "that", "this", "it", "from", "they", "we",
   "say", "her", "she", "he", "will", "my", "one", "all", "would", "there", "their"]

/-- Source `SimpleNLPProcessor.extractKeywords`. -/
def extractKeywords (tokens : List String) : List String :=
  (tokens.filter (fun t => !stopWords.contains t && t.length > 2)).take 5

/-- The literal `0.75` of `processMessage` (a JS number on the 0–1 scale),
written as the rational 75/100. -/
def fixedConfidence : Rat := mkRat 75 100

/-- Source `SimpleNLPProcessor.processMessage`.  The confidence is the literal
`0.75` of the source; entities are always the empty record. -/
def processMessage (message : String) : ProcessedMessage :=
  let cleanMessage := jsTrim (jsToLower message)
  let tokens := (jsSplitSpace cleanMessage).filter (fun t => t.length > 0)
  { intent := classifyIntent cleanMessage
    entities := []
    sentiment := analyzeSentiment cleanMessage
    confidence := fixedConfidence
    keywords := extractKeywords tokens }

/-! ### Data model (`src/shared/schema.ts`, rows as stored by `MemStorage`) -/

/-- Table `bot_configs` row (fields the pipeline reads). -/
structure BotConfig where
  confidenceThreshold : Rat
  fallbackMessage : String
  deriving Repr, DecidableEq

/-- Table `platforms` row. -/
structure Platform where
  id : Nat
  name : String
  status : String
  apiKey : Option String
  messagesCount : Nat
  lastMessageAt : Option Int
  deriving Repr, DecidableEq

/-- Table `conversations` row. -/
structure Conversation where
  id : Nat
  platformId : Nat
  userId : String
  userName : Option String
  status : String
  messagesCount : Nat
  lastMessageAt : Option Int
  deriving Repr, DecidableEq

/-- Table `messages` row. -/
structure Message where
  id : Nat
  conversationId : Nat
  content : String
  sender : String
  confidence : Option Rat
  responseTime : Option Int
  templateId : Option Nat
  sentAt : Int
  deriving Repr, DecidableEq

/-- Table `templates` row.  `varNames` models the source's `variables` field
(`variables` is a reserved word in Lean 4); it is nullable in storage (a
created template without a supplied list stores `null`). -/
structure Template where
  id : Nat
  name : String
  category : String
  content : String
  varNames : Option (List String)
  isActive : Bool
  usageCount : Nat
  deriving Repr, DecidableEq

/-- Table `ml_models` row. -/
structure MlModel where
  id : Nat
  name : String
  version : String
  accuracy : Nat
  status : String
  deriving Repr, DecidableEq

/-- Table `logs` row. -/
structure LogEntry where
  id : Nat
  level : String
  message : String
  source : String
  deriving Repr, DecidableEq

/-- In-memory record store (`MemStorage` in `src/server/routes.ts`): one list
per table in insertion order, a single id counter shared by all tables, and a
logical clock supplying the timestamps observed by queries. -/
structure Store where
  nextId : Nat
  clock : Int
  botConfig : Option BotConfig
  platforms : List Platform
  conversations : List Conversation
  messages : List Message
  templates : List Template
  mlModels : List MlModel
  logs : List LogEntry
  deriving Repr, DecidableEq

/-! ### `MemStorage` operations used by the pipeline -/

/-- The JS coercion `v || null` applied to a nullable number: `0` (and
`null`/`undefined`) collapse to `null`. -/
def jsOrNullRat (v : Option Rat) : Option Rat :=
  match v with
  | some x => if x = 0 then none else some x
  | none => none

/-- Coercion `v || null` for a nullable integer field. -/
def jsOrNullInt (v : Option Int) : Option Int :=
  match v with
  | some x => if x = 0 then none else some x
  | none => none

/-- Coercion `v || null` for a nullable id field (`templateId`). -/
def jsOrNullNat (v : Option Nat) : Option Nat :=
  match v with
  | some x => if x = 0 then none else some x
  | none => none

/-- Argument record of `MemStorage.createMessage` (`InsertMessage`). -/
structure InsertMessage where
  conversationId : Nat
  content : String
  sender : String
  confidence : Option Rat
  responseTime : Option Int
  templateId : Option Nat
  deriving Repr, DecidableEq

/-- Source `MemStorage.createMessage`: allocates the next shared id, coerces the
falsy `confidence`/`responseTime`/`templateId` values to `null` via `|| null`,
stamps `sentAt`, appends the row, and returns it.  The logical clock advances
so later messages carry later stamps. -/
def createMessage (st : Store) (im : InsertMessage) : Message × Store :=
  let m : Message :=
    { id := st.nextId
      conversationId := im.conversationId
      content := im.content
      sender := im.sender
      confidence := jsOrNullRat im.confidence
      responseTime := jsOrNullInt im.responseTime
      templateId := jsOrNullNat im.templateId
      sentAt := st.clock }
  (m, { st with nextId := st.nextId + 1, clock := st.clock + 1,
                messages := st.messages ++ [m] })

/-- Source `MemStorage.getPlatformByName`. -/
def getPlatformByName (st : Store) (name : String) : Option Platform :=
  st.platforms.find? (fun p => p.name = name)

/-- Coercion `v || null` for a nullable string field (`apiKey`): the empty string is
falsy and collapses to `null`. -/
def jsOrNullStr (v : Option String) : Option String :=
  match v with
  | some s => if s = "" then none else some s
  | none => none

/-- Source `MemStorage.createPlatform` (fields the adapters supply). -/
def createPlatform (st : Store) (name : String) (status : String)
    (apiKey : Option String) : Platform × Store :=
  let p : Platform :=
    { id := st.nextId, name := name, status := status, apiKey := jsOrNullStr apiKey
      messagesCount := 0, lastMessageAt := none }
  (p, { st with nextId := st.nextId + 1, platforms := st.platforms ++ [p] })

/-- Source `MemStorage.updatePlatform` restricted to the partial update the pipeline
issues (`messagesCount` and `lastMessageAt`).  The `Map.set` on the row's key
is modelled by rewriting every entry with that id. -/
def updatePlatformCount (st : Store) (pid : Nat) (count : Nat) : Store :=
  { st with platforms := st.platforms.map (fun p =>
      if p.id = pid then { p with messagesCount := count, lastMessageAt := some st.clock } else p) }

/-- Source `MemStorage.createConversation`. -/
def createConversation (st : Store) (platformId : Nat) (userId : String)
    (userName : Option String) : Conversation × Store :=
  let c : Conversation :=
    { id := st.nextId, platformId := platformId, userId := userId
      userName := userName, status := "active", messagesCount := 0, lastMessageAt := none }
  (c, { st with nextId := st.nextId + 1, conversations := st.conversations ++ [c] })

/-- Source `MemStorage.updateConversation` restricted to the pipeline's partial
update (`messagesCount` and `lastMessageAt`). -/
def updateConversationCount (st : Store) (cid : Nat) (count : Nat) : Store :=
  { st with conversations := st.conversations.map (fun c =>
      if c.id = cid then { c with messagesCount := count, lastMessageAt := some st.clock } else c) }

/-- Source `MemStorage.updateTemplate` restricted to the partial update issued by
`MLTrainer.generateResponse` (`usageCount` only). -/
def updateTemplateUsage (st : Store) (tid : Nat) (usage : Nat) : Store :=
  { st with templates := st.templates.map (fun t =>
      if t.id = tid then { t with usageCount := usage } else t) }

/-- Source `MemStorage.createLog` (fields observed by the claims: level, message,
source). -/
def createLog (st : Store) (level message source : String) : Store :=
  let l : LogEntry := { id := st.nextId, level := level, message := message, source := source }
  { st with nextId := st.nextId + 1, logs := st.logs ++ [l] }

/-- Source `MemStorage.getAllTemplates`. -/
def getAllTemplates (st : Store) : List Template := st.templates

/-- Source `MemStorage.getAllPlatforms`. -/
def getAllPlatforms (st : Store) : List Platform := st.platforms

/-- Source `MemStorage.getCurrentMlModel`: first model whose status is `ready`. -/
def getCurrentMlModel (st : Store) : Option MlModel :=
  st.mlModels.find? (fun m => m.status = "ready")

/-- Descending insertion by `sentAt` (stable). -/
def insertByStamp (m : Message) : List Message → List Message
  | [] => [m]
  | x :: xs => if m.sentAt > x.sentAt then m :: x :: xs else x :: insertByStamp m xs

/-- Source `MemStorage.getRecentMessages`: sort by `sentAt` descending, take the
first `limit`. -/
def getRecentMessages (st : Store) (limit : Nat) : List Message :=
  ((st.messages.foldr insertByStamp []).take limit)

/-! ### `MLTrainer.generateResponse` (`src/server/nlp/trainer.ts`, first class) -/

/-- Result record of both generators: `{response, confidence, templateId?}`. -/
structure GenResult where
  response : String
  confidence : Rat
  templateId : Option Nat
  deriving Repr, DecidableEq

/-- The `templates.find(...)` of `MLTrainer.generateResponse`: first template
whose (lowercased) category or name contains the intent label.  The `isActive`
flag is not consulted by the source. -/
def findMatchingTemplate (intent : String) (templates : List Template) : Option Template :=
  templates.find? (fun t =>
    strIncludes (jsToLower t.category) intent || strIncludes (jsToLower t.name) intent)

/-- The variable-substitution loop of `MLTrainer.generateResponse` (lines
159–171): for each declared variable whose entity value is present and truthy,
replace the first occurrence of its placeholder.  A `null` variable list (or
any absent value) leaves the content untouched. -/
def substituteStep (content : String) (varNames : Option (List String))
    (entities : List (String × String)) : String :=
  match varNames with
  | none => content
  | some vars =>
    vars.foldl (fun resp v =>
      match (entities.find? (fun e => e.1 = v)).map Prod.snd with
      | some val => if val ≠ "" then replaceFirst resp ("\x7b" ++ v ++ "\x7d") val else resp
      | none => resp) content

/-- The fixed `intentResponses` table of `MLTrainer.generateResponse`. -/
def intentResponses (intent : String) : Option String :=
  if intent = "greeting" then some "Hello! How can I help you today?"
  else if intent = "farewell" then some "Thank you for contacting us. Have a great day!"
  else if intent = "help" then some "I\x27m here to help. What do you need assistance with?"
  else if intent = "order_inquiry" then some "I can help you with your order. Could you please provide your order number?"
  else if intent = "pricing" then some "I\x27d be happy to provide pricing information. What product are you interested in?"
  else if intent = "product_info" then some "What would you like to know about our products?"
  else if intent = "complaint" then some "I apologize for any inconvenience. Let me help resolve this issue for you."
  else if intent = "gratitude" then some "You\x27re welcome! Is there anything else I can help you with?"
  else if intent = "cancel_request" then some "I understand you\x27d like to cancel. Let me help you with that process."
  else if intent = "delivery_inquiry" then some "I can check on your delivery status. Please provide your order number."
  else none

/-- Source `MLTrainer.generateResponse`: classify, throw when no bot configuration
exists, fall back below the threshold, otherwise match a template (with
variable substitution and a usage-count increment) or the canned table, or
the fallback message when neither applies. -/
def generateResponse (message : String) (st : Store) : Except String (GenResult × Store) :=
  let processed := processMessage message
  match st.botConfig with
  | none => .error "Bot configuration not found"
  | some botConfig =>
    if processed.confidence < botConfig.confidenceThreshold then
      .ok ({ response := botConfig.fallbackMessage, confidence := processed.confidence,
             templateId := none }, st)
    else
      match findMatchingTemplate processed.intent (getAllTemplates st) with
      | some matchingTemplate =>
        let response := substituteStep matchingTemplate.content matchingTemplate.varNames
          processed.entities
        let st' := updateTemplateUsage st matchingTemplate.id (matchingTemplate.usageCount + 1)
        .ok ({ response := response, confidence := processed.confidence,
               templateId := some matchingTemplate.id }, st')
      | none =>
        let response := (intentResponses processed.intent).getD botConfig.fallbackMessage
        .ok ({ response := response, confidence := processed.confidence,
               templateId := none }, st)

/-! ### `SimpleMLTrainer.generateResponse` (`src/server/nlp/trainer.ts`,
second class; the generator the three channel adapters instantiate) -/

/-- Result record of `SimpleMLTrainer.generateResponse`: no `templateId`. -/
structure SimpleGenResult where
  response : String
  confidence : Rat
  intent : String
  deriving Repr, DecidableEq

/-- The `switch` of `SimpleMLTrainer.generateResponse`. -/
def simpleCannedResponse (intent : String) : String :=
  if intent = "greeting" then "Hello! How can I help you today?"
  else if intent = "help_request" then "I\x27m here to help! What do you need assistance with?"
  else if intent = "gratitude" then "You\x27re welcome! Is there anything else I can help you with?"
  else if intent = "farewell" then "Goodbye! Have a great day!"
  else if intent = "pricing_inquiry" then "I can help you with pricing information. What specific product or service are you interested in?"
  else if intent = "delivery_inquiry" then "I can provide delivery information. Could you please share your order details?"
  else "Thank you for your message. How can I assist you today?"

/-- Source `SimpleMLTrainer.generateResponse`: a pure function of the message text;
the source performs no storage access at all (the `platformId` argument is
unused). -/
def simpleGenerateResponse (message : String) (platformId : Nat) : SimpleGenResult :=
  let processed := processMessage message
  { response := simpleCannedResponse processed.intent
    confidence := processed.confidence
    intent := processed.intent }

/-! ### Telegram channel adapter (`src/server/platforms/telegram.ts`)

`TelegramHandler.handleMessage` wraps `processIncomingMessage` in a try/catch
that logs an error-level `Log` and answers HTTP 500; `processIncomingMessage`
wraps the whole per-message pipeline in its own try/catch that logs and
swallows.  The outbound `sendMessage` silently returns when the bot token is
missing (a `console.warn` only — no store write) and logs an error-level
`Log` when the platform API answers a non-success status. -/

/-- Environment of one webhook delivery: the configured credential state, the
outcome the platform API would give an attempted send, and the elapsed
response time measured at the bot-message persistence step. -/
structure SendEnv where
  hasToken : Bool
  apiOk : Bool
  elapsed : Int
  deriving Repr, DecidableEq

/-- The `from` object of a Telegram message (`message.from`); `none` models a
payload where the field is absent, so that `message.from.id` raises. -/
structure TgUser where
  id : String
  firstName : String
  deriving Repr, DecidableEq

/-- A Telegram `message` object as the handler reads it. -/
structure TgMessage where
  fromUser : Option TgUser
  text : Option String
  chatId : Int
  deriving Repr, DecidableEq

/-- Source `TelegramHandler.sendMessage`: no token ⇒ `console.warn` and return (no
store write); token present but non-success HTTP response ⇒ error-level `Log`;
success ⇒ no store write. -/
def sendMessage (env : SendEnv) (st : Store) : Store :=
  if !env.hasToken then st
  else if env.apiOk then st
  else createLog st "error" "Failed to send Telegram message" "telegram"

/-- Steps 1–2 of the pipeline: resolve or create the `telegram` platform
row. -/
def resolvePlatform (env : SendEnv) (st : Store) : Platform × Store :=
  match getPlatformByName st "telegram" with
  | some p => (p, st)
  | none => createPlatform st "telegram" "active" (if env.hasToken then some "token" else some "")

/-- Find-or-create of the conversation for `(platform.id, userId)`. -/
def resolveConversation (st : Store) (platformId : Nat) (userId : String)
    (userName : String) : Conversation × Store :=
  match st.conversations.find? (fun c => c.platformId = platformId && c.userId = userId) with
  | some c => (c, st)
  | none => createConversation st platformId userId (some userName)

/-- Source `TelegramHandler.processIncomingMessage`: the full per-message pipeline of
the adapter.  The inner try/catch is modelled by the `fromUser` match: a
payload without `from` raises at `message.from.id`, is caught, and only an
error-level `Log` is appended. -/
def processIncomingMessage (env : SendEnv) (msg : TgMessage) (st : Store) : Store :=
  match msg.fromUser with
  | none => createLog st "error" "Failed to process Telegram message" "telegram"
  | some u =>
    let pr := resolvePlatform env st
    let cr := resolveConversation pr.2 pr.1.id u.id u.firstName
    let m1 := createMessage cr.2
      { conversationId := cr.1.id, content := msg.text.getD "[Media]",
        sender := "user", confidence := none, responseTime := none, templateId := none }
    let r := simpleGenerateResponse (msg.text.getD "") pr.1.id
    let m2 := createMessage m1.2
      { conversationId := cr.1.id, content := r.response, sender := "bot",
        confidence := some r.confidence, responseTime := some env.elapsed,
        templateId := none }
    let st5 := sendMessage env m2.2
    let st6 := updatePlatformCount st5 pr.1.id (pr.1.messagesCount + 1)
    let st7 := updateConversationCount st6 cr.1.id (cr.1.messagesCount + 2)
    createLog st7 "info" "Telegram message processed successfully" "telegram"

/-- The request body of a webhook delivery as `handleMessage` reads it:
`none` models a body on which the `update.message` access itself raises;
`some none` a body without a `message` field; `some (some m)` a delivery
carrying a message. -/
def TgBody : Type := Option (Option TgMessage)

/-- Source `TelegramHandler.handleMessage`: HTTP status answered to the webhook
caller, together with the resulting store.  A top-level exception is caught,
logged as an error-level `Log`, and answered with status 500. -/
def handleMessage (env : SendEnv) (body : TgBody) (st : Store) : Nat × Store :=
  match body with
  | none => (500, createLog st "error" "Telegram webhook processing failed" "telegram")
  | some none => (200, st)
  | some (some m) => (200, processIncomingMessage env m st)

/-! ### Live fan-out channel (`WebSocketManager` in `src/server/routes.ts`) -/

/-- JS `Math.round (num / den)` for a positive denominator: half-up rounding,
`⌊num/den + 1/2⌋ = ⌊(2·num + den) / (2·den)⌋`. -/
def jsRound (num : Int) (den : Nat) : Int := Int.fdiv (2 * num + den) (2 * den)

/-- Aggregate-stats record computed by `WebSocketManager.calculateStats`. -/
structure Stats where
  totalMessages : Nat
  activeUsers : Nat
  responseRate : Int
  avgResponseTime : Int
  todayMessages : Nat
  mlAccuracy : Nat
  activePlatforms : Nat
  deriving Repr, DecidableEq

/-- Source `WebSocketManager.calculateStats`, with the local-midnight boundary
(`today`) supplied as a parameter. -/
def calculateStats (st : Store) (today : Int) : Stats :=
  let platforms := getAllPlatforms st
  let conversations := st.conversations
  let recentMessages := getRecentMessages st 1000
  let mlModel := getCurrentMlModel st
  let todayMessages := recentMessages.filter (fun m => m.sentAt ≥ today)
  let botMessages := recentMessages.filter (fun m =>
    m.sender = "bot" && (match m.responseTime with | some x => x ≠ 0 | none => false))
  let avgResponseTime : Int :=
    if botMessages.length > 0 then
      jsRound (botMessages.foldl (fun sum m => sum + m.responseTime.getD 0) 0)
        botMessages.length
    else 0
  let userMessages := recentMessages.filter (fun m => m.sender = "user")
  let responseRate : Int :=
    if userMessages.length > 0 then
      jsRound ((botMessages.length : Int) * 100) userMessages.length
    else 100
  let activeUsers :=
    (((conversations.filter (fun c =>
        match c.lastMessageAt with | some t => t ≥ today | none => false)).map
      (fun c => c.userId)).eraseDups).length
  { totalMessages := platforms.foldl (fun sum p => sum + p.messagesCount) 0
    activeUsers := activeUsers
    responseRate := responseRate
    avgResponseTime := avgResponseTime
    todayMessages := todayMessages.length
    mlAccuracy := match mlModel with
      | some m => m.accuracy
      | none => 0
    activePlatforms := (platforms.filter (fun p => p.status = "active")).length }

/-- The `type` discriminator of the push-message wire contract. -/
inductive WsMsgType where
  | statsUpdate
  | newMessage
  | platformStatus
  | mlUpdate
  | logUpdate
  deriving Repr, DecidableEq

/-- The `data` payload of a push message. -/
inductive WsData where
  | stats (s : Stats)
  | platformList (ps : List Platform)
  | messageList (ms : List Message)
  | model (m : Option MlModel)
  | logEntry (l : LogEntry)
  deriving Repr, DecidableEq

/-- A tagged push message `{type, data}`. -/
structure WsMsg where
  type : WsMsgType
  data : WsData
  deriving Repr, DecidableEq

/-- Source `WebSocketManager.sendInitialData`: the four snapshot messages pushed, in
source order, to a newly connected observer, computed from the store at
connection time. -/
def initialMessages (st : Store) (today : Int) : List WsMsg :=
  [⟨.statsUpdate, .stats (calculateStats st today)⟩,
   ⟨.platformStatus, .platformList (getAllPlatforms st)⟩,
   ⟨.newMessage, .messageList (getRecentMessages st 10)⟩,
   ⟨.mlUpdate, .model (getCurrentMlModel st)⟩]

/-- Events of the fan-out channel: a new observer connection (with the store
snapshot current at that moment), a broadcast (event-driven or timer-driven),
and an observer disconnect. -/
inductive WsEvent where
  | connect (obs : Nat) (st : Store) (today : Int)
  | broadcast (m : WsMsg)
  | disconnect (obs : Nat)

/-- Fan-out channel state: the connected-observer set and, per observer, the
sequence of messages delivered to it so far. -/
structure WsState where
  clients : List Nat
  inbox : Nat → List WsMsg

/-- One event of the fan-out channel.  `connect` adds the observer to the set
and pushes the four snapshot messages (`sendInitialData`); `broadcast` appends
the message to every connected observer's delivery sequence; `disconnect`
removes the observer. -/
def wsStep (s : WsState) : WsEvent → WsState
  | .connect o st today =>
    { clients := o :: s.clients
      inbox := fun i => if i = o then s.inbox i ++ initialMessages st today else s.inbox i }
  | .broadcast m =>
    { clients := s.clients
      inbox := fun i => if s.clients.contains i then s.inbox i ++ [m] else s.inbox i }
  | .disconnect o =>
    { clients := s.clients.erase o, inbox := s.inbox }

/-- Run a sequence of fan-out events. -/
def wsRun (s : WsState) (es : List WsEvent) : WsState := es.foldl wsStep s

/-- The initial fan-out state: no observers, nothing delivered. -/
def wsInit : WsState := { clients := [], inbox := fun _ => [] }

/-! ### The seed data of `MemStorage.initializeDefaultData`

The three seeded templates carry a `Math.random()`-drawn usage count in the
source; the embedding fixes those counts (and the demo timestamps) to
constants, which no claim observes. -/

/-- Seeded bot configuration: threshold 75, the stock apology fallback. -/
def defaultBotConfig : BotConfig :=
  { confidenceThreshold := 75
    fallbackMessage := "Sorry, I didn\x27t understand that. Can you please rephrase?" }

/-- Seeded template rows (ids 1–3). -/
def defaultTemplates : List Template :=
  [{ id := 1, name := "Welcome Message", category := "Greetings",
     content := "Hello! Welcome to LuvSmithCorp. How can I assist you today?",
     varNames := some [], isActive := true, usageCount := 0 },
   { id := 2, name := "Order Support", category := "Customer Support",
     content := "I\x27d be happy to help you with your order. Could you please provide your order number?",
     varNames := some ["orderNumber"], isActive := true, usageCount := 0 },
   { id := 3, name := "Product Information", category := "Sales",
     content := "I can provide information about our products. What would you like to know?",
     varNames := some ["productName"], isActive := true, usageCount := 0 }]

/-- Seeded platform rows (ids 1–3). -/
def defaultPlatforms : List Platform :=
  [{ id := 1, name := "whatsapp", status := "active", apiKey := none,
     messagesCount := 847, lastMessageAt := some 0 },
   { id := 2, name := "telegram", status := "active", apiKey := none,
     messagesCount := 523, lastMessageAt := some 0 },
   { id := 3, name := "messenger", status := "active", apiKey := none,
     messagesCount := 477, lastMessageAt := some 0 }]

/-- The store as seeded by `MemStorage.initializeDefaultData`. -/
def defaultStore : Store :=
  { nextId := 10
    clock := 1
    botConfig := some defaultBotConfig
    platforms := defaultPlatforms
    conversations := []
    messages := []
    templates := defaultTemplates
    mlModels := [{ id := 1, name := "LuvSmithCorp NLP Model", version := "1.0.0",
                   accuracy := 94, status := "ready" }]
    logs := [] }

/-! ### Derived notions used by the theorems -/

/-- The matching predicate of the `templates.find(...)` in
`MLTrainer.generateResponse`. -/
def templateMatches (intent : String) (t : Template) : Bool :=
  strIncludes (jsToLower t.category) intent || strIncludes (jsToLower t.name) intent

/-- The usage counter of the template with id `tid`, as read back through
`find?` (the `Map.get` of `MemStorage`). -/
def usageOf (st : Store) (tid : Nat) : Option Nat :=
  (st.templates.find? (fun t => t.id = tid)).map (fun t => t.usageCount)

/-- The template table has pairwise distinct ids — the invariant `MemStorage`
maintains by keying its `Map` on the id. -/
abbrev TemplateIdsNodup (st : Store) : Prop :=
  (st.templates.map (fun t => t.id)).Nodup

/-- One turn of `MLTrainer.generateResponse`, keeping only the store. -/
def runTurn (msg : String) (st : Store) : Store :=
  match generateResponse msg st with
  | .ok (_, st') => st'
  | .error _ => st

/-- Sequential turns of `MLTrainer.generateResponse`. -/
def runTurns : List String → Store → Store
  | [], st => st
  | m :: ms, st => runTurns ms (runTurn m st)

/-- Every turn of the sequence succeeds and resolves, via the category/name
match, to the template with id `tid`. -/
def turnsResolveTo (tid : Nat) : List String → Store → Prop
  | [], _ => True
  | m :: ms, st =>
    match generateResponse m st with
    | .ok (r, st') => r.templateId = some tid ∧ turnsResolveTo tid ms st'
    | .error _ => False

/-- Log entries projected to the fields the failure-semantics claims
observe. -/
def logView (st : Store) : List (String × String) :=
  st.logs.map (fun l => (l.level, l.message))

/-- The seven canned response strings of `SimpleMLTrainer.generateResponse`. -/
def simpleCannedList : List String :=
  ["Hello! How can I help you today?",
   "I\x27m here to help! What do you need assistance with?",
   "You\x27re welcome! Is there anything else I can help you with?",
   "Goodbye! Have a great day!",
   "I can help you with pricing information. What specific product or service are you interested in?",
   "I can provide delivery information. Could you please share your order details?",
   "Thank you for your message. How can I assist you today?"]

/-- A store whose bot configuration sets the threshold to 0 (so the fixed
classifier confidence clears it) and has no templates. -/
def thresholdZeroStore : Store :=
  { defaultStore with
      botConfig := some { confidenceThreshold := 0, fallbackMessage := "FB" }
      templates := [] }

/-- A single inactive template whose category matches the greeting intent. -/
def inactiveTemplate : Template :=
  { id := 7, name := "Welcome", category := "Greetings",
    content := "Inactive greeting reply", varNames := some [],
    isActive := false, usageCount := 3 }

/-- A store holding only `inactiveTemplate`, with threshold 0. -/
def inactiveStore : Store :=
  { defaultStore with
      botConfig := some { confidenceThreshold := 0, fallbackMessage := "FB" }
      templates := [inactiveTemplate] }

/-- A send environment with no configured bot token. -/
def noTokenEnv : SendEnv := { hasToken := false, apiOk := true, elapsed := 5 }

/-- A send environment with a token whose platform API call fails. -/
def apiFailEnv : SendEnv := { hasToken := true, apiOk := false, elapsed := 5 }

/-- A fully working send environment. -/
def okEnv : SendEnv := { hasToken := true, apiOk := true, elapsed := 5 }

/-- A concrete Telegram sender. -/
def annUser : TgUser := { id := "42", firstName := "Ann" }

/-- A concrete inbound Telegram message. -/
def annMsg : TgMessage := { fromUser := some annUser, text := some "hello", chatId := 9 }

/-- A concrete inbound Telegram message without a `from` object (its access
raises inside the pipeline). -/
def noFromMsg : TgMessage := { fromUser := none, text := some "hi", chatId := 1 }

/-! ## Claim theorems -/

/-- C1: for the input `"hello there"` the classifier does assign intent
`greeting`, but its fixed confidence is the JS number `0.75` (the 0–1 scale),
not `75`; against the seeded configuration with `confidenceThreshold = 75`
the comparison `0.75 < 75` holds, so `MLTrainer.generateResponse` returns the
configured fallback message — not the greeting template that does match the
intent — even though a matching greeting template exists and the schema
documents confidence on the 0–100 scale.  (The companion evidence that the
0–1 value is a slip: `calculateAccuracy` requires `confidence > 70`, which the
fixed `0.75` can never satisfy.) -/
theorem C1_greeting_scenario_evaluation :
    (processMessage "hello there").intent = "greeting" ∧
    (processMessage "hello there").confidence = mkRat 75 100 ∧
    defaultBotConfig.confidenceThreshold = 75 ∧
    fixedConfidence < defaultBotConfig.confidenceThreshold ∧
    (findMatchingTemplate "greeting" defaultStore.templates).isSome = true ∧
    fixedConfidence ≤ 70 ∧
    generateResponse "hello there" defaultStore =
      .ok ({ response := defaultBotConfig.fallbackMessage,
             confidence := mkRat 75 100, templateId := none }, defaultStore) ∧
    (defaultBotConfig.fallbackMessage ==
      "Hello! Welcome to LuvSmithCorp. How can I assist you today?") = false := by
  decide

/-- C2 counterexample: with `confidenceThreshold = 0` the classifier
confidence `0.75` is not below the threshold, yet `generateResponse` on
`"xyzzy plugh"` (intent `general_inquiry`: no matching template in the empty
table, no entry in the canned-response table) still returns exactly the
configured fallback message — so "returns the fallback iff confidence <
threshold" is false. -/
theorem C2_fallback_iff_counterexample :
    (decide (fixedConfidence < (0 : Rat))) = false ∧
    generateResponse "xyzzy plugh" thresholdZeroStore =
      .ok ({ response := "FB", confidence := fixedConfidence, templateId := none },
        thresholdZeroStore) := by
  decide

/-- C2 (amended): whenever the classified confidence is below the threshold,
`generateResponse` returns exactly the configured fallback message with no
template id and an unchanged store (no usage-counter mutation); when the
confidence is at or above the threshold the fallback text can still be
returned — namely when no template matches and the intent has no
canned-response entry — again with an unchanged store. -/
theorem C2_threshold_fallback (st : Store) (cfg : BotConfig) (msg : String)
    (r : GenResult) (st' : Store)
    (hcfg : st.botConfig = some cfg)
    (hrun : generateResponse msg st = .ok (r, st')) :
    ((processMessage msg).confidence < cfg.confidenceThreshold →
      r = { response := cfg.fallbackMessage,
            confidence := (processMessage msg).confidence, templateId := none } ∧
      st' = st) ∧
    (¬ (processMessage msg).confidence < cfg.confidenceThreshold →
      findMatchingTemplate (processMessage msg).intent st.templates = none →
      intentResponses (processMessage msg).intent = none →
      r.response = cfg.fallbackMessage ∧ r.templateId = none ∧ st' = st) := by
  constructor
  · intro hlt
    simp only [generateResponse, hcfg, if_pos hlt] at hrun
    simp only [Except.ok.injEq, Prod.mk.injEq] at hrun
    exact ⟨hrun.1.symm, hrun.2.symm⟩
  · intro hge hfind hcanned
    simp only [generateResponse, hcfg, if_neg hge, getAllTemplates, hfind, hcanned,
      Option.getD_none] at hrun
    simp only [Except.ok.injEq, Prod.mk.injEq] at hrun
    exact ⟨congrArg GenResult.response hrun.1.symm,
      congrArg GenResult.templateId hrun.1.symm, hrun.2.symm⟩

/-- C2 witness: the amended theorem applied at the seeded store and input
`"hello there"` (confidence 0.75 below the seeded threshold 75). -/
theorem C2_threshold_fallback_witness :
    ({ response := defaultBotConfig.fallbackMessage, confidence := fixedConfidence,
       templateId := none } : GenResult)
      = { response := defaultBotConfig.fallbackMessage,
          confidence := (processMessage "hello there").confidence, templateId := none }
    ∧ defaultStore = defaultStore :=
  (C2_threshold_fallback defaultStore defaultBotConfig "hello there"
      { response := defaultBotConfig.fallbackMessage, confidence := fixedConfidence,
        templateId := none }
      defaultStore rfl (by decide)).1 (by decide)

/-- Helper: the substitution fold leaves the content untouched when no
declared variable has an entity entry. -/
theorem substFold_absent (ents : List (String × String)) :
    ∀ (vars : List String) (content : String),
      (∀ v ∈ vars, ents.find? (fun e => e.1 = v) = none) →
      vars.foldl (fun resp v =>
        match (ents.find? (fun e => e.1 = v)).map Prod.snd with
        | some val => if val ≠ "" then replaceFirst resp ("\x7b" ++ v ++ "\x7d") val else resp
        | none => resp) content = content := by
  intro vars
  induction vars with
  | nil => intro content _; rfl
  | cons v vs ih =>
    intro content h
    have hv : ents.find? (fun e => e.1 = v) = none := h v (List.mem_cons_self v vs)
    simp only [List.foldl_cons, hv, Option.map_none]
    exact ih content (fun u hu => h u (List.mem_cons_of_mem v hu))

/-- C4 counterexample: for the template content `"Hi {name} {name}"` with
entity `name = "Sam"`, the claim requires every occurrence to be replaced
(output `"Hi Sam Sam"`), but the substitution step uses JS `replace` with a
string pattern, which rewrites only the first occurrence: the output is
`"Hi Sam {name}"`. -/
theorem C4_every_occurrence_counterexample :
    substituteStep "Hi \x7bname\x7d \x7bname\x7d" (some ["name"]) [("name", "Sam")]
      = "Hi Sam \x7bname\x7d" ∧
    (substituteStep "Hi \x7bname\x7d \x7bname\x7d" (some ["name"]) [("name", "Sam")]
      == "Hi Sam Sam") = false := by
  decide

/-- C4 (amended): the substitution step replaces, for each declared variable
with a present non-empty entity value, only the first occurrence of its
`\x7bvariableName\x7d` placeholder (later occurrences stay literal), and
leaves the placeholders of absent variables literal; in particular the
claim's example `"Hi \x7bname\x7d, order \x7borderNumber\x7d"` with only
`name = "Sam"` yields `"Hi Sam, order \x7borderNumber\x7d"`, and a content
with no present variable is returned verbatim. -/
theorem C4_first_occurrence_substitution :
    (substituteStep "Hi \x7bname\x7d, order \x7borderNumber\x7d"
        (some ["name", "orderNumber"]) [("name", "Sam")]
      = "Hi Sam, order \x7borderNumber\x7d") ∧
    (substituteStep "Hi \x7bname\x7d \x7bname\x7d" (some ["name"]) [("name", "Sam")]
      = "Hi Sam \x7bname\x7d") ∧
    (∀ content ents, substituteStep content none ents = content) ∧
    (∀ content vars ents,
      (∀ v ∈ vars, ents.find? (fun e => e.1 = v) = none) →
      substituteStep content (some vars) ents = content) := by
  refine ⟨by decide, by decide, fun content ents => rfl, fun content vars ents h => ?_⟩
  exact substFold_absent ents vars content h

/-- C4 witness: the amended theorem's absent-variable clause applied at a
concrete template content and empty entity map. -/
theorem C4_first_occurrence_substitution_witness :
    substituteStep "Hello \x7bx\x7d" (some ["x"]) [] = "Hello \x7bx\x7d" :=
  C4_first_occurrence_substitution.2.2.2 "Hello \x7bx\x7d" ["x"] [] (by decide)

/-- Helper: a successful `find?` returns the first satisfying element. -/
theorem find?_first {α : Type} (p : α → Bool) :
    ∀ (l : List α) (a : α), l.find? p = some a →
      p a = true ∧ ∃ pre post, l = pre ++ a :: post ∧ ∀ u ∈ pre, p u = false := by
  intro l
  induction l with
  | nil => intro a h; simp [List.find?] at h
  | cons x xs ih =>
    intro a h
    by_cases hx : p x = true
    · rw [List.find?_cons_of_pos _ hx] at h
      obtain rfl : x = a := by injection h
      exact ⟨hx, [], xs, rfl, by simp⟩
    · rw [List.find?_cons_of_neg _ hx] at h
      obtain ⟨hpa, pre, post, rfl, hpre⟩ := ih a h
      exact ⟨hpa, x :: pre, post, rfl, by
        intro u hu
        rcases List.mem_cons.mp hu with rfl | hu'
        · exact Bool.not_eq_true _ ▸ (by simpa using hx)
        · exact hpre u hu'⟩

/-- Helper: `findMatchingTemplate` is `find?` with the category/name
predicate. -/
theorem findMatchingTemplate_eq (intent : String) (ts : List Template) :
    findMatchingTemplate intent ts = ts.find? (templateMatches intent) := rfl

/-- Helper: the matching predicate never reads the `isActive` flag. -/
theorem templateMatches_set_active (intent : String) (t : Template) (b : Bool) :
    templateMatches intent { t with isActive := b } = templateMatches intent t := rfl

/-- C5 counterexample: a store whose only template is inactive but
category-matches the greeting intent, with threshold 0: `generateResponse`
selects the inactive template (returning its content and template id, and
bumping its usage counter) — so "inactive templates are never selected" is
false; the source's `templates.find(...)` never consults `isActive`. -/
theorem C5_inactive_selected_counterexample :
    inactiveTemplate.isActive = false ∧
    generateResponse "hello there" inactiveStore =
      .ok ({ response := "Inactive greeting reply", confidence := fixedConfidence,
             templateId := some 7 },
        { inactiveStore with templates := [{ inactiveTemplate with usageCount := 4 }] }) := by
  decide

/-- C5 (amended): at or above the threshold the selector searches the whole
template table — active and inactive alike — and picks the first template, in
storage order, whose lowercased category or name contains the classified
intent label as a substring: the selected template is always a first match,
uniformly rewriting every template's `isActive` flag does not change which
template is found, and the result's template id is exactly the id of the
first match. -/
theorem C5_first_match_ignores_active_flag :
    (∀ intent ts t, findMatchingTemplate intent ts = some t →
      templateMatches intent t = true ∧
      ∃ pre post, ts = pre ++ t :: post ∧ ∀ u ∈ pre, templateMatches intent u = false) ∧
    (∀ intent ts b,
      findMatchingTemplate intent (ts.map (fun t => { t with isActive := b }))
        = (findMatchingTemplate intent ts).map (fun t => { t with isActive := b })) ∧
    (∀ msg st cfg r st', st.botConfig = some cfg →
      ¬ (processMessage msg).confidence < cfg.confidenceThreshold →
      generateResponse msg st = .ok (r, st') →
      r.templateId = (findMatchingTemplate (processMessage msg).intent st.templates).map
        (fun t => t.id)) := by
  refine ⟨fun intent ts t h => find?_first (templateMatches intent) ts t h,
    fun intent ts b => ?_, fun msg st cfg r st' hcfg hge hrun => ?_⟩
  · rw [findMatchingTemplate_eq, findMatchingTemplate_eq, List.find?_map]
    rfl
  · simp only [generateResponse, hcfg, if_neg hge, getAllTemplates] at hrun
    cases hfind : findMatchingTemplate (processMessage msg).intent st.templates with
    | none =>
      rw [hfind] at hrun
      simp only [Except.ok.injEq, Prod.mk.injEq] at hrun
      rw [← hrun.1]
      rfl
    | some t =>
      rw [hfind] at hrun
      simp only [Except.ok.injEq, Prod.mk.injEq] at hrun
      rw [← hrun.1]
      rfl

/-- C5 witness: the amended theorem's first-match clause applied to the
seeded template table at intent `greeting`, and its selector clause applied
at the inactive-template store. -/
theorem C5_first_match_ignores_active_flag_witness :
    (templateMatches "greeting" (defaultTemplates.get ⟨0, by decide⟩) = true ∧
      ∃ pre post, defaultTemplates = pre ++ (defaultTemplates.get ⟨0, by decide⟩) :: post ∧
        ∀ u ∈ pre, templateMatches "greeting" u = false) ∧
    (some 7 : Option Nat) =
      (findMatchingTemplate (processMessage "hello there").intent inactiveStore.templates).map
        (fun t => t.id) :=
  ⟨C5_first_match_ignores_active_flag.1 "greeting" defaultTemplates
      (defaultTemplates.get ⟨0, by decide⟩) (by decide),
   C5_first_match_ignores_active_flag.2.2 "hello there" inactiveStore
      { confidenceThreshold := 0, fallbackMessage := "FB" }
      { response := "Inactive greeting reply", confidence := fixedConfidence,
        templateId := some 7 }
      { inactiveStore with templates := [{ inactiveTemplate with usageCount := 4 }] }
      rfl (by decide) (by decide)⟩

/-- C10: `MemStorage.createMessage` builds the stored row with
`confidence: insertMessage.confidence || null` (and likewise for
`responseTime`), so a supplied value of `0` — falsy in JS — is coerced to
`null`; a bot reply stored with zero confidence and a zero-millisecond
response time is therefore indistinguishable, in those fields, from a user
message stored with `null`s. -/
theorem C10_zero_coerced_to_null (st : Store) (im : InsertMessage) :
    (im.confidence = some 0 → (createMessage st im).1.confidence = none) ∧
    (im.responseTime = some 0 → (createMessage st im).1.responseTime = none) ∧
    (∀ st' imUser, imUser.confidence = none → imUser.responseTime = none →
      im.confidence = some 0 → im.responseTime = some 0 →
      ((createMessage st im).1.confidence, (createMessage st im).1.responseTime)
        = ((createMessage st' imUser).1.confidence, (createMessage st' imUser).1.responseTime)) := by
  refine ⟨fun hc => ?_, fun hr => ?_, fun st' imUser hc' hr' hc hr => ?_⟩
  · simp [createMessage, jsOrNullRat, hc]
  · simp [createMessage, jsOrNullInt, hr]
  · simp [createMessage, jsOrNullRat, jsOrNullInt, hc, hr, hc', hr']

/-- C10 witness: the coercion theorem applied at a concrete bot reply with
confidence 0 and response time 0, against a concrete user message. -/
theorem C10_zero_coerced_to_null_witness :
    ((createMessage defaultStore
        { conversationId := 4, content := "ok", sender := "bot",
          confidence := some 0, responseTime := some 0, templateId := none }).1.confidence,
     (createMessage defaultStore
        { conversationId := 4, content := "ok", sender := "bot",
          confidence := some 0, responseTime := some 0, templateId := none }).1.responseTime)
    = ((createMessage defaultStore
          { conversationId := 4, content := "hi", sender := "user",
            confidence := none, responseTime := none, templateId := none }).1.confidence,
       (createMessage defaultStore
          { conversationId := 4, content := "hi", sender := "user",
            confidence := none, responseTime := none, templateId := none }).1.responseTime) :=
  (C10_zero_coerced_to_null defaultStore
      { conversationId := 4, content := "ok", sender := "bot",
        confidence := some 0, responseTime := some 0, templateId := none }).2.2
    defaultStore
    { conversationId := 4, content := "hi", sender := "user",
      confidence := none, responseTime := none, templateId := none }
    rfl rfl rfl rfl

/-- Helper: inversion of a successful `MLTrainer.generateResponse` run — it
either leaves the store untouched (fallback or canned path, no template id)
or matched a template and incremented exactly that template's usage count. -/
theorem generateResponse_ok_inv (msg : String) (st : Store) (r : GenResult) (st' : Store)
    (h : generateResponse msg st = .ok (r, st')) :
    (r.templateId = none ∧ st' = st) ∨
    (∃ t, findMatchingTemplate (processMessage msg).intent st.templates = some t ∧
      r.templateId = some t.id ∧ st' = updateTemplateUsage st t.id (t.usageCount + 1)) := by
  cases hcfg : st.botConfig with
  | none => simp [generateResponse, hcfg] at h
  | some cfg =>
    by_cases hlt : (processMessage msg).confidence < cfg.confidenceThreshold
    · simp only [generateResponse, hcfg, if_pos hlt, Except.ok.injEq, Prod.mk.injEq] at h
      exact Or.inl ⟨by rw [← h.1], h.2.symm⟩
    · simp only [generateResponse, hcfg, if_neg hlt, getAllTemplates] at h
      cases hfind : findMatchingTemplate (processMessage msg).intent st.templates with
      | none =>
        rw [hfind] at h
        simp only [Except.ok.injEq, Prod.mk.injEq] at h
        exact Or.inl ⟨by rw [← h.1], h.2.symm⟩
      | some t =>
        rw [hfind] at h
        simp only [Except.ok.injEq, Prod.mk.injEq] at h
        exact Or.inr ⟨t, rfl, by rw [← h.1], h.2.symm⟩

/-- Helper: reading a usage count through the id-keyed rewrite of
`updateTemplateUsage`. -/
theorem find?_usage_map (tid u tid' : Nat) (l : List Template) :
    ((l.map (fun t => if t.id = tid then { t with usageCount := u } else t)).find?
        (fun t => t.id = tid')).map (fun t => t.usageCount)
      = (l.find? (fun t => t.id = tid')).map
          (fun t => if t.id = tid then u else t.usageCount) := by
  rw [List.find?_map, Option.map_map]
  have hp : ((fun (t : Template) => decide (t.id = tid')) ∘
      (fun (t : Template) => if t.id = tid then { t with usageCount := u } else t))
      = (fun (t : Template) => decide (t.id = tid')) := by
    funext t
    by_cases h : t.id = tid <;> simp [h]
  rw [hp]
  cases hf : l.find? (fun t => decide (t.id = tid')) with
  | none => rfl
  | some w =>
    by_cases h : w.id = tid <;> simp [Function.comp, h]

/-- Helper: `usageOf` after `updateTemplateUsage`. -/
theorem usageOf_updateTemplateUsage (st : Store) (tid u tid' : Nat) :
    usageOf (updateTemplateUsage st tid u) tid'
      = (st.templates.find? (fun t => t.id = tid')).map
          (fun t => if t.id = tid then u else t.usageCount) := by
  unfold usageOf updateTemplateUsage
  exact find?_usage_map tid u tid' st.templates

/-- Helper: under distinct ids, looking a member template up by its own id
finds exactly it. -/
theorem find?_by_id_of_mem_nodup (l : List Template) (t : Template)
    (hmem : t ∈ l) (hnd : (l.map (fun x => x.id)).Nodup) :
    l.find? (fun u => u.id = t.id) = some t := by
  induction l with
  | nil => cases hmem
  | cons x xs ih =>
    rcases List.mem_cons.mp hmem with rfl | hmem'
    · simp [List.find?_cons]
    · have hnd' : (xs.map (fun x => x.id)).Nodup := (List.nodup_cons.mp (by simpa using hnd)).2
      have hx : x.id ∉ xs.map (fun x => x.id) := (List.nodup_cons.mp (by simpa using hnd)).1
      have hne : ¬ (x.id = t.id) := fun he => hx (he ▸ List.mem_map_of_mem _ hmem')
      simp [List.find?_cons, hne, ih hmem' hnd']

/-- Helper: `updateTemplateUsage` preserves the id column. -/
theorem updateTemplateUsage_ids (st : Store) (tid u : Nat) :
    (updateTemplateUsage st tid u).templates.map (fun t => t.id)
      = st.templates.map (fun t => t.id) := by
  unfold updateTemplateUsage
  rw [List.map_map]
  refine List.map_congr_left ?_
  intro t _
  by_cases h : t.id = tid <;> simp [h]

/-- Helper: a successful run with a matched template bumps exactly that
template's usage count by one, in every reading of `usageOf`, and preserves
the id column. -/
theorem step_usage (msg : String) (st : Store) (r : GenResult) (st' : Store) (tid : Nat)
    (h : generateResponse msg st = .ok (r, st'))
    (hnd : TemplateIdsNodup st)
    (htid : r.templateId = some tid) :
    usageOf st' tid = (usageOf st tid).map (fun u => u + 1)
    ∧ st'.templates.map (fun t => t.id) = st.templates.map (fun t => t.id) := by
  rcases generateResponse_ok_inv msg st r st' h with ⟨hnone, _⟩ | ⟨t, hfind, hsome, hst'⟩
  · rw [htid] at hnone; cases hnone
  · have hid : tid = t.id := by rw [htid] at hsome; exact Option.some_inj.mp hsome
    have hmem : t ∈ st.templates :=
      List.mem_of_find?_eq_some (findMatchingTemplate_eq _ _ ▸ hfind)
    have hfound : st.templates.find? (fun u => u.id = t.id) = some t :=
      find?_by_id_of_mem_nodup st.templates t hmem hnd
    subst hid hst'
    constructor
    · rw [usageOf_updateTemplateUsage]
      unfold usageOf
      rw [hfound]
      simp
    · exact updateTemplateUsage_ids st t.id (t.usageCount + 1)

/-- C6: under the store invariant of pairwise-distinct template ids, (a) no
successful run of `MLTrainer.generateResponse` ever decreases any template's
usage counter, and (b) over any sequence of sequential turns that each
resolve, via the category/name match, to the template with id `tid`, that
template's usage counter increases by exactly the number of turns. -/
theorem C6_usage_counter_monotone_exact :
    (∀ msg st r st' tid u u', TemplateIdsNodup st →
      generateResponse msg st = .ok (r, st') →
      usageOf st tid = some u → usageOf st' tid = some u' → u ≤ u') ∧
    (∀ msgs st tid, TemplateIdsNodup st → turnsResolveTo tid msgs st →
      usageOf (runTurns msgs st) tid = (usageOf st tid).map (fun u => u + msgs.length)) := by
  constructor
  · intro msg st r st' tid u u' hnd h hu hu'
    rcases generateResponse_ok_inv msg st r st' h with ⟨_, rfl⟩ | ⟨t, hfind, hsome, rfl⟩
    · rw [hu] at hu'
      exact le_of_eq (Option.some_inj.mp hu')
    · rw [usageOf_updateTemplateUsage] at hu'
      unfold usageOf at hu
      cases hf : st.templates.find? (fun x => x.id = tid) with
      | none => rw [hf] at hu; cases hu
      | some w =>
        rw [hf] at hu hu'
        simp only [Option.map_some'] at hu hu'
        have hwu : w.usageCount = u := Option.some_inj.mp hu
        by_cases hw : w.id = t.id
        · have hmem : t ∈ st.templates :=
            List.mem_of_find?_eq_some (findMatchingTemplate_eq _ _ ▸ hfind)
          have hft : st.templates.find? (fun x => x.id = t.id) = some t :=
            find?_by_id_of_mem_nodup _ t hmem hnd
          have hwid : w.id = tid := by
            have := List.find?_some hf
            simpa using this
          have htt : tid = t.id := by rw [← hwid, hw]
          subst htt
          rw [hft] at hf
          obtain rfl : w = t := (Option.some_inj.mp hf).symm
          rw [if_pos hw] at hu'
          have : w.usageCount + 1 = u' := Option.some_inj.mp hu'
          omega
        · rw [if_neg hw] at hu'
          have : w.usageCount = u' := Option.some_inj.mp hu'
          omega
  · intro msgs
    induction msgs with
    | nil =>
      intro st tid _ _
      cases h : usageOf st tid <;> simp [runTurns, h]
    | cons m ms ih =>
      intro st tid hnd hres
      simp only [turnsResolveTo] at hres
      cases hg : generateResponse m st with
      | error e => rw [hg] at hres; exact absurd hres (by simp)
      | ok p =>
        obtain ⟨r, st₁⟩ := p
        rw [hg] at hres
        obtain ⟨hrid, hres'⟩ := hres
        have hstep := step_usage m st r st₁ tid hg hnd hrid
        have hnd₁ : TemplateIdsNodup st₁ := by
          unfold TemplateIdsNodup
          rw [hstep.2]
          exact hnd
        have hrun1 : runTurn m st = st₁ := by unfold runTurn; rw [hg]
        have hchain : runTurns (m :: ms) st = runTurns ms st₁ := by
          have h0 : runTurns (m :: ms) st = runTurns ms (runTurn m st) := rfl
          rw [h0, hrun1]
        rw [hchain, ih st₁ tid hnd₁ hres', hstep.1]
        cases usageOf st tid with
        | none => rfl
        | some u =>
          simp only [Option.map_some', List.length_cons, Option.some.injEq]
          omega

/-- C6 witness: the exact-increment clause applied to one turn on the
single-template store (usage count 3 before, 4 after). -/
theorem C6_usage_counter_monotone_exact_witness :
    usageOf (runTurns ["hello there"] inactiveStore) 7
      = (usageOf inactiveStore 7).map (fun u => u + (["hello there"] : List String).length) :=
  C6_usage_counter_monotone_exact.2 ["hello there"] inactiveStore 7 (by decide)
    (by exact ⟨rfl, trivial⟩)

/-! ### Frame lemmas for the adapter pipeline -/

@[simp] theorem createLog_messages (st : Store) (lv m s : String) :
    (createLog st lv m s).messages = st.messages := rfl

@[simp] theorem createLog_platforms (st : Store) (lv m s : String) :
    (createLog st lv m s).platforms = st.platforms := rfl

@[simp] theorem createLog_conversations (st : Store) (lv m s : String) :
    (createLog st lv m s).conversations = st.conversations := rfl

@[simp] theorem createLog_templates (st : Store) (lv m s : String) :
    (createLog st lv m s).templates = st.templates := rfl

@[simp] theorem createLog_botConfig (st : Store) (lv m s : String) :
    (createLog st lv m s).botConfig = st.botConfig := rfl

@[simp] theorem createLog_mlModels (st : Store) (lv m s : String) :
    (createLog st lv m s).mlModels = st.mlModels := rfl

@[simp] theorem createLog_logView (st : Store) (lv m s : String) :
    logView (createLog st lv m s) = logView st ++ [(lv, m)] := by
  simp [logView, createLog]

@[simp] theorem createMessage_snd_messages (st : Store) (im : InsertMessage) :
    (createMessage st im).2.messages = st.messages ++ [(createMessage st im).1] := rfl

@[simp] theorem createMessage_snd_platforms (st : Store) (im : InsertMessage) :
    (createMessage st im).2.platforms = st.platforms := rfl

@[simp] theorem createMessage_snd_conversations (st : Store) (im : InsertMessage) :
    (createMessage st im).2.conversations = st.conversations := rfl

@[simp] theorem createMessage_snd_templates (st : Store) (im : InsertMessage) :
    (createMessage st im).2.templates = st.templates := rfl

@[simp] theorem createMessage_snd_botConfig (st : Store) (im : InsertMessage) :
    (createMessage st im).2.botConfig = st.botConfig := rfl

@[simp] theorem createMessage_snd_mlModels (st : Store) (im : InsertMessage) :
    (createMessage st im).2.mlModels = st.mlModels := rfl

@[simp] theorem createMessage_snd_logView (st : Store) (im : InsertMessage) :
    logView (createMessage st im).2 = logView st := rfl

@[simp] theorem updatePlatformCount_messages (st : Store) (pid cnt : Nat) :
    (updatePlatformCount st pid cnt).messages = st.messages := rfl

@[simp] theorem updatePlatformCount_conversations (st : Store) (pid cnt : Nat) :
    (updatePlatformCount st pid cnt).conversations = st.conversations := rfl

@[simp] theorem updatePlatformCount_templates (st : Store) (pid cnt : Nat) :
    (updatePlatformCount st pid cnt).templates = st.templates := rfl

@[simp] theorem updatePlatformCount_botConfig (st : Store) (pid cnt : Nat) :
    (updatePlatformCount st pid cnt).botConfig = st.botConfig := rfl

@[simp] theorem updatePlatformCount_mlModels (st : Store) (pid cnt : Nat) :
    (updatePlatformCount st pid cnt).mlModels = st.mlModels := rfl

@[simp] theorem updatePlatformCount_logView (st : Store) (pid cnt : Nat) :
    logView (updatePlatformCount st pid cnt) = logView st := rfl

@[simp] theorem updateConversationCount_messages (st : Store) (cid cnt : Nat) :
    (updateConversationCount st cid cnt).messages = st.messages := rfl

@[simp] theorem updateConversationCount_platforms (st : Store) (cid cnt : Nat) :
    (updateConversationCount st cid cnt).platforms = st.platforms := rfl

@[simp] theorem updateConversationCount_templates (st : Store) (cid cnt : Nat) :
    (updateConversationCount st cid cnt).templates = st.templates := rfl

@[simp] theorem updateConversationCount_botConfig (st : Store) (cid cnt : Nat) :
    (updateConversationCount st cid cnt).botConfig = st.botConfig := rfl

@[simp] theorem updateConversationCount_mlModels (st : Store) (cid cnt : Nat) :
    (updateConversationCount st cid cnt).mlModels = st.mlModels := rfl

@[simp] theorem updateConversationCount_logView (st : Store) (cid cnt : Nat) :
    logView (updateConversationCount st cid cnt) = logView st := rfl

@[simp] theorem sendMessage_messages (env : SendEnv) (st : Store) :
    (sendMessage env st).messages = st.messages := by
  unfold sendMessage; split <;> [rfl; split <;> rfl]

@[simp] theorem sendMessage_platforms (env : SendEnv) (st : Store) :
    (sendMessage env st).platforms = st.platforms := by
  unfold sendMessage; split <;> [rfl; split <;> rfl]

@[simp] theorem sendMessage_conversations (env : SendEnv) (st : Store) :
    (sendMessage env st).conversations = st.conversations := by
  unfold sendMessage; split <;> [rfl; split <;> rfl]

@[simp] theorem sendMessage_templates (env : SendEnv) (st : Store) :
    (sendMessage env st).templates = st.templates := by
  unfold sendMessage; split <;> [rfl; split <;> rfl]

@[simp] theorem sendMessage_botConfig (env : SendEnv) (st : Store) :
    (sendMessage env st).botConfig = st.botConfig := by
  unfold sendMessage; split <;> [rfl; split <;> rfl]

@[simp] theorem sendMessage_mlModels (env : SendEnv) (st : Store) :
    (sendMessage env st).mlModels = st.mlModels := by
  unfold sendMessage; split <;> [rfl; split <;> rfl]

theorem sendMessage_logView_noToken (env : SendEnv) (st : Store)
    (h : env.hasToken = false) : logView (sendMessage env st) = logView st := by
  unfold sendMessage
  rw [h]
  rfl

theorem sendMessage_logView_apiFail (env : SendEnv) (st : Store)
    (h : env.hasToken = true) (h' : env.apiOk = false) :
    logView (sendMessage env st)
      = logView st ++ [("error", "Failed to send Telegram message")] := by
  unfold sendMessage
  rw [h, h']
  simp

@[simp] theorem resolvePlatform_messages (env : SendEnv) (st : Store) :
    (resolvePlatform env st).2.messages = st.messages := by
  unfold resolvePlatform
  cases getPlatformByName st "telegram" <;> simp [createPlatform]

@[simp] theorem resolvePlatform_conversations (env : SendEnv) (st : Store) :
    (resolvePlatform env st).2.conversations = st.conversations := by
  unfold resolvePlatform
  cases getPlatformByName st "telegram" <;> simp [createPlatform]

@[simp] theorem resolvePlatform_templates (env : SendEnv) (st : Store) :
    (resolvePlatform env st).2.templates = st.templates := by
  unfold resolvePlatform
  cases getPlatformByName st "telegram" <;> simp [createPlatform]

@[simp] theorem resolvePlatform_botConfig (env : SendEnv) (st : Store) :
    (resolvePlatform env st).2.botConfig = st.botConfig := by
  unfold resolvePlatform
  cases getPlatformByName st "telegram" <;> simp [createPlatform]

@[simp] theorem resolvePlatform_mlModels (env : SendEnv) (st : Store) :
    (resolvePlatform env st).2.mlModels = st.mlModels := by
  unfold resolvePlatform
  cases getPlatformByName st "telegram" <;> simp [createPlatform]

@[simp] theorem resolvePlatform_logView (env : SendEnv) (st : Store) :
    logView (resolvePlatform env st).2 = logView st := by
  unfold resolvePlatform
  cases getPlatformByName st "telegram" <;> simp [createPlatform, logView]

theorem resolvePlatform_mem (env : SendEnv) (st : Store) :
    (resolvePlatform env st).1 ∈ (resolvePlatform env st).2.platforms := by
  unfold resolvePlatform
  cases h : getPlatformByName st "telegram" with
  | some p => simpa using List.mem_of_find?_eq_some h
  | none => simp [createPlatform]

@[simp] theorem resolveConversation_messages (st : Store) (pid : Nat) (uid un : String) :
    (resolveConversation st pid uid un).2.messages = st.messages := by
  unfold resolveConversation
  cases st.conversations.find? (fun c => c.platformId = pid && c.userId = uid) <;>
    simp [createConversation]

@[simp] theorem resolveConversation_platforms (st : Store) (pid : Nat) (uid un : String) :
    (resolveConversation st pid uid un).2.platforms = st.platforms := by
  unfold resolveConversation
  cases st.conversations.find? (fun c => c.platformId = pid && c.userId = uid) <;>
    simp [createConversation]

@[simp] theorem resolveConversation_templates (st : Store) (pid : Nat) (uid un : String) :
    (resolveConversation st pid uid un).2.templates = st.templates := by
  unfold resolveConversation
  cases st.conversations.find? (fun c => c.platformId = pid && c.userId = uid) <;>
    simp [createConversation]

@[simp] theorem resolveConversation_botConfig (st : Store) (pid : Nat) (uid un : String) :
    (resolveConversation st pid uid un).2.botConfig = st.botConfig := by
  unfold resolveConversation
  cases st.conversations.find? (fun c => c.platformId = pid && c.userId = uid) <;>
    simp [createConversation]

@[simp] theorem resolveConversation_mlModels (st : Store) (pid : Nat) (uid un : String) :
    (resolveConversation st pid uid un).2.mlModels = st.mlModels := by
  unfold resolveConversation
  cases st.conversations.find? (fun c => c.platformId = pid && c.userId = uid) <;>
    simp [createConversation]

@[simp] theorem resolveConversation_logView (st : Store) (pid : Nat) (uid un : String) :
    logView (resolveConversation st pid uid un).2 = logView st := by
  unfold resolveConversation
  cases st.conversations.find? (fun c => c.platformId = pid && c.userId = uid) <;>
    simp [createConversation, logView]

theorem resolveConversation_mem (st : Store) (pid : Nat) (uid un : String) :
    (resolveConversation st pid uid un).1 ∈ (resolveConversation st pid uid un).2.conversations := by
  unfold resolveConversation
  cases h : st.conversations.find? (fun c => c.platformId = pid && c.userId = uid) with
  | some c => simpa using List.mem_of_find?_eq_some h
  | none => simp [createConversation]

theorem count_map_platform (ps : List Platform) (pid cnt : Nat) (tm : Int) :
    (∀ p ∈ ps.map (fun q =>
        if q.id = pid then { q with messagesCount := cnt, lastMessageAt := some tm } else q),
      p.id = pid → p.messagesCount = cnt) ∧
    (∀ q ∈ ps, q.id = pid → ∃ p ∈ ps.map (fun q =>
        if q.id = pid then { q with messagesCount := cnt, lastMessageAt := some tm } else q),
      p.id = pid) := by
  constructor
  · intro p hp hid
    obtain ⟨q, hq, rfl⟩ := List.mem_map.mp hp
    by_cases h : q.id = pid
    · simp [h]
    · rw [if_neg h] at hid ⊢
      exact absurd hid h
  · intro q hq hid
    refine ⟨if q.id = pid then { q with messagesCount := cnt, lastMessageAt := some tm } else q,
      List.mem_map_of_mem _ hq, ?_⟩
    rw [if_pos hid]
    exact hid

theorem count_map_conversation (cs : List Conversation) (cid cnt : Nat) (tm : Int) :
    (∀ c ∈ cs.map (fun q =>
        if q.id = cid then { q with messagesCount := cnt, lastMessageAt := some tm } else q),
      c.id = cid → c.messagesCount = cnt) ∧
    (∀ q ∈ cs, q.id = cid → ∃ c ∈ cs.map (fun q =>
        if q.id = cid then { q with messagesCount := cnt, lastMessageAt := some tm } else q),
      c.id = cid) := by
  constructor
  · intro c hc hid
    obtain ⟨q, hq, rfl⟩ := List.mem_map.mp hc
    by_cases h : q.id = cid
    · simp [h]
    · rw [if_neg h] at hid ⊢
      exact absurd hid h
  · intro q hq hid
    refine ⟨if q.id = cid then { q with messagesCount := cnt, lastMessageAt := some tm } else q,
      List.mem_map_of_mem _ hq, ?_⟩
    rw [if_pos hid]
    exact hid

theorem updatePlatformCount_platforms (st : Store) (pid cnt : Nat) :
    (updatePlatformCount st pid cnt).platforms = st.platforms.map (fun p =>
      if p.id = pid then { p with messagesCount := cnt, lastMessageAt := some st.clock }
      else p) := rfl

theorem updateConversationCount_conversations (st : Store) (cid cnt : Nat) :
    (updateConversationCount st cid cnt).conversations = st.conversations.map (fun c =>
      if c.id = cid then { c with messagesCount := cnt, lastMessageAt := some st.clock }
      else c) := rfl

/-- C7 counterexample: force the outbound send to fail by leaving the bot
token unconfigured — the source then only emits a `console.warn` and returns,
writing nothing to the store: after the run the only new log entry is the
final info-level success log, and no Log entry at all records the delivery
failure, refuting "the delivery failure is recorded ... as a Log entry". -/
theorem C7_missing_credential_not_logged :
    logView (processIncomingMessage noTokenEnv annMsg defaultStore)
      = [("info", "Telegram message processed successfully")] ∧
    ((processIncomingMessage noTokenEnv annMsg defaultStore).logs.filter
      (fun l => l.message == "Failed to send Telegram message")).length = 0 := by
  decide

/-- C7 (amended): for every pipeline run whose outbound send fails — missing
credentials or a non-success platform API response — the inbound user Message
and the outbound bot Message are still appended to the store, every platform
row with the resolved platform's id carries counter `+1` and every
conversation row with the resolved conversation's id carries counter `+2`
(such rows exist); a failing API send appends exactly one error-level Log
entry before the final info log, while a missing credential appends no
delivery-failure Log entry at all (only a console warning). -/
theorem C7_send_failure_does_not_block_persistence
    (env : SendEnv) (msg : TgMessage) (u : TgUser) (st : Store)
    (hu : msg.fromUser = some u) :
    ((processIncomingMessage env msg st).messages.map
        (fun m => (m.sender, m.content, m.confidence))
      = st.messages.map (fun m => (m.sender, m.content, m.confidence))
        ++ [("user", msg.text.getD "[Media]", none),
            ("bot", (simpleGenerateResponse (msg.text.getD "")
              (resolvePlatform env st).1.id).response,
             some fixedConfidence)]) ∧
    (∀ p ∈ (processIncomingMessage env msg st).platforms,
      p.id = (resolvePlatform env st).1.id →
      p.messagesCount = (resolvePlatform env st).1.messagesCount + 1) ∧
    (∃ p ∈ (processIncomingMessage env msg st).platforms,
      p.id = (resolvePlatform env st).1.id) ∧
    (∀ c ∈ (processIncomingMessage env msg st).conversations,
      c.id = (resolveConversation (resolvePlatform env st).2
        (resolvePlatform env st).1.id u.id u.firstName).1.id →
      c.messagesCount = (resolveConversation (resolvePlatform env st).2
        (resolvePlatform env st).1.id u.id u.firstName).1.messagesCount + 2) ∧
    (∃ c ∈ (processIncomingMessage env msg st).conversations,
      c.id = (resolveConversation (resolvePlatform env st).2
        (resolvePlatform env st).1.id u.id u.firstName).1.id) ∧
    (env.hasToken = false →
      logView (processIncomingMessage env msg st)
        = logView st ++ [("info", "Telegram message processed successfully")]) ∧
    (env.hasToken = true → env.apiOk = false →
      logView (processIncomingMessage env msg st)
        = logView st ++ [("error", "Failed to send Telegram message"),
                         ("info", "Telegram message processed successfully")]) := by
  simp only [processIncomingMessage, hu]
  refine ⟨?_, ?_, ?_, ?_, ?_, ?_, ?_⟩
  · simp only [createLog_messages, updateConversationCount_messages,
      updatePlatformCount_messages, sendMessage_messages, createMessage_snd_messages,
      resolveConversation_messages, resolvePlatform_messages, List.append_assoc,
      List.map_append]
    simp [createMessage, jsOrNullRat, jsOrNullInt, jsOrNullNat, simpleGenerateResponse,
      processMessage]
    decide
  · intro p hp hid
    rw [createLog_platforms, updateConversationCount_platforms,
      updatePlatformCount_platforms, sendMessage_platforms, createMessage_snd_platforms,
      createMessage_snd_platforms, resolveConversation_platforms] at hp
    exact (count_map_platform _ _ _ _).1 p hp hid
  · rw [createLog_platforms, updateConversationCount_platforms,
      updatePlatformCount_platforms, sendMessage_platforms, createMessage_snd_platforms,
      createMessage_snd_platforms, resolveConversation_platforms]
    exact (count_map_platform _ _ _ _).2 _ (resolvePlatform_mem env st) rfl
  · intro c hc hid
    rw [createLog_conversations, updateConversationCount_conversations,
      updatePlatformCount_conversations, sendMessage_conversations,
      createMessage_snd_conversations, createMessage_snd_conversations] at hc
    exact (count_map_conversation _ _ _ _).1 c hc hid
  · rw [createLog_conversations, updateConversationCount_conversations,
      updatePlatformCount_conversations, sendMessage_conversations,
      createMessage_snd_conversations, createMessage_snd_conversations]
    exact (count_map_conversation _ _ _ _).2 _
      (resolveConversation_mem (resolvePlatform env st).2
        (resolvePlatform env st).1.id u.id u.firstName) rfl
  · intro hnt
    rw [createLog_logView, updateConversationCount_logView, updatePlatformCount_logView,
      sendMessage_logView_noToken _ _ hnt, createMessage_snd_logView,
      createMessage_snd_logView, resolveConversation_logView, resolvePlatform_logView]
  · intro ht hapi
    rw [createLog_logView, updateConversationCount_logView, updatePlatformCount_logView,
      sendMessage_logView_apiFail _ _ ht hapi, createMessage_snd_logView,
      createMessage_snd_logView, resolveConversation_logView, resolvePlatform_logView,
      List.append_assoc]
    rfl

/-- C7 witness: the amended theorem applied at the seeded store with a
missing credential. -/
theorem C7_send_failure_does_not_block_persistence_witness :
    logView (processIncomingMessage noTokenEnv annMsg defaultStore)
      = logView defaultStore ++ [("info", "Telegram message processed successfully")] :=
  (C7_send_failure_does_not_block_persistence noTokenEnv annMsg annUser defaultStore
    rfl).2.2.2.2.2.1 rfl

/-- C3 counterexample: a delivery whose body makes the very first property
access (`update.message`) raise — e.g. a POST whose body the middleware left
undefined — escapes `processIncomingMessage`'s inner catch and lands in the
top-level catch of `handleMessage`, which answers HTTP 500, not a
2xx-equivalent success acknowledgment. -/
theorem C3_top_level_500_counterexample :
    (handleMessage okEnv none defaultStore).1 = 500 ∧
    (decide (200 ≤ (handleMessage okEnv none defaultStore).1 ∧
      (handleMessage okEnv none defaultStore).1 < 300)) = false := by
  decide

/-- C3 (amended): every delivery whose envelope is readable is acknowledged
with HTTP 200 regardless of the internal pipeline outcome — in particular an
exception inside the per-message pipeline is caught there and logged as an
error-level Log while the caller still receives 200; but an exception raised
while reading the envelope itself escapes to the top-level catch, which logs
an error-level Log and answers 500 (not a 2xx acknowledgment). -/
theorem C3_ack_and_error_logging (env : SendEnv) (st : Store) :
    (∀ m : TgMessage, (handleMessage env (some (some m)) st).1 = 200) ∧
    ((handleMessage env (some none) st).1 = 200 ∧ (handleMessage env (some none) st).2 = st) ∧
    (∀ m : TgMessage, m.fromUser = none →
      (handleMessage env (some (some m)) st).1 = 200 ∧
      logView (handleMessage env (some (some m)) st).2
        = logView st ++ [("error", "Failed to process Telegram message")]) ∧
    ((handleMessage env none st).1 = 500 ∧
      logView (handleMessage env none st).2
        = logView st ++ [("error", "Telegram webhook processing failed")]) := by
  refine ⟨fun m => rfl, ⟨rfl, rfl⟩, fun m hm => ⟨rfl, ?_⟩, rfl, by simp [handleMessage]⟩
  simp only [handleMessage, processIncomingMessage, hm]
  simp

/-- C3 witness: the amended theorem's pipeline-exception clause applied to a
payload without a `from` object, at the seeded store. -/
theorem C3_ack_and_error_logging_witness :
    (handleMessage okEnv (some (some noFromMsg)) defaultStore).1 = 200 ∧
    logView (handleMessage okEnv (some (some noFromMsg)) defaultStore).2
      = logView defaultStore ++ [("error", "Failed to process Telegram message")] :=
  (C3_ack_and_error_logging okEnv defaultStore).2.2.1 noFromMsg rfl

/-- C9: across a whole webhook delivery handled by the Telegram adapter, the
template table, the bot configuration and the model table are untouched —
the generator the adapters actually instantiate (`SimpleMLTrainer`) performs
no storage access: its result is a pure function of the message text whose
response is the canned string of the classified intent, always one of the
seven fixed strings, and equal for any two inputs with the same classified
intent (the `platformId` argument is irrelevant). -/
theorem C9_simple_generator_pure_frame (env : SendEnv) (body : TgBody) (st : Store) :
    ((handleMessage env body st).2.templates = st.templates ∧
     (handleMessage env body st).2.botConfig = st.botConfig ∧
     (handleMessage env body st).2.mlModels = st.mlModels) ∧
    (∀ m pid, simpleGenerateResponse m pid =
      { response := simpleCannedResponse (processMessage m).intent,
        confidence := fixedConfidence, intent := (processMessage m).intent }) ∧
    (∀ m pid, (simpleGenerateResponse m pid).response ∈ simpleCannedList) ∧
    (∀ m₁ m₂ pid₁ pid₂, (processMessage m₁).intent = (processMessage m₂).intent →
      (simpleGenerateResponse m₁ pid₁).response = (simpleGenerateResponse m₂ pid₂).response) := by
  refine ⟨?_, fun m pid => rfl, fun m pid => ?_, fun m₁ m₂ pid₁ pid₂ h => ?_⟩
  · cases body with
    | none => exact ⟨rfl, rfl, rfl⟩
    | some ob =>
      cases ob with
      | none => exact ⟨rfl, rfl, rfl⟩
      | some m =>
        cases hm : m.fromUser with
        | none =>
          simp only [handleMessage, processIncomingMessage, hm]
          exact ⟨rfl, rfl, rfl⟩
        | some u =>
          simp only [handleMessage, processIncomingMessage, hm]
          refine ⟨?_, ?_, ?_⟩ <;>
            simp only [createLog_templates, createLog_botConfig, createLog_mlModels,
              updateConversationCount_templates, updateConversationCount_botConfig,
              updateConversationCount_mlModels, updatePlatformCount_templates,
              updatePlatformCount_botConfig, updatePlatformCount_mlModels,
              sendMessage_templates, sendMessage_botConfig, sendMessage_mlModels,
              createMessage_snd_templates, createMessage_snd_botConfig,
              createMessage_snd_mlModels, resolveConversation_templates,
              resolveConversation_botConfig, resolveConversation_mlModels,
              resolvePlatform_templates, resolvePlatform_botConfig, resolvePlatform_mlModels]
  · show simpleCannedResponse (processMessage m).intent ∈ simpleCannedList
    unfold simpleCannedResponse
    split
    · simp [simpleCannedList]
    · split
      · simp [simpleCannedList]
      · split
        · simp [simpleCannedList]
        · split
          · simp [simpleCannedList]
          · split
            · simp [simpleCannedList]
            · split
              · simp [simpleCannedList]
              · simp [simpleCannedList]
  · show simpleCannedResponse (processMessage m₁).intent
      = simpleCannedResponse (processMessage m₂).intent
    rw [h]

/-- C9 witness: the frame statement applied at a concrete delivery, and the
canned-response clause at two inputs sharing the `greeting` intent. -/
theorem C9_simple_generator_pure_frame_witness :
    (handleMessage noTokenEnv (some (some annMsg)) defaultStore).2.templates
      = defaultStore.templates ∧
    (simpleGenerateResponse "hello there" 1).response
      = (simpleGenerateResponse "hey you" 2).response :=
  ⟨(C9_simple_generator_pure_frame noTokenEnv (some (some annMsg)) defaultStore).1.1,
   (C9_simple_generator_pure_frame noTokenEnv none defaultStore).2.2.2
     "hello there" "hey you" 1 2 (by decide)⟩

/-- Helper: one fan-out event only ever appends to an observer's delivery
sequence. -/
theorem wsStep_inbox_extends (s : WsState) (e : WsEvent) (o : Nat) :
    ∃ r, (wsStep s e).inbox o = s.inbox o ++ r := by
  cases e with
  | connect o' st today =>
    by_cases h : o = o'
    · exact ⟨initialMessages st today, by simp [wsStep, h]⟩
    · exact ⟨[], by simp [wsStep, h]⟩
  | broadcast m =>
    by_cases h : o ∈ s.clients
    · exact ⟨[m], by simp [wsStep, h]⟩
    · exact ⟨[], by simp [wsStep, h]⟩
  | disconnect o' => exact ⟨[], by simp [wsStep]⟩

/-- Helper: a run of fan-out events only ever appends to an observer's
delivery sequence. -/
theorem wsRun_inbox_extends (es : List WsEvent) :
    ∀ (s : WsState) (o : Nat), ∃ r, (wsRun s es).inbox o = s.inbox o ++ r := by
  induction es with
  | nil => intro s o; exact ⟨[], by simp [wsRun]⟩
  | cons e es ih =>
    intro s o
    obtain ⟨r1, h1⟩ := wsStep_inbox_extends s e o
    obtain ⟨r2, h2⟩ := ih (wsStep s e) o
    refine ⟨r1 ++ r2, ?_⟩
    have : wsRun s (e :: es) = wsRun (wsStep s e) es := rfl
    rw [this, h2, h1, List.append_assoc]

/-- Helper: an observer that never connects during a run receives nothing
and stays outside the observer set. -/
theorem wsRun_not_connected (es : List WsEvent) :
    ∀ (s : WsState) (o : Nat), s.inbox o = [] → o ∉ s.clients →
    (∀ st today, WsEvent.connect o st today ∉ es) →
    (wsRun s es).inbox o = [] ∧ o ∉ (wsRun s es).clients := by
  induction es with
  | nil => intro s o h1 h2 _; exact ⟨h1, h2⟩
  | cons e es ih =>
    intro s o h1 h2 hno
    have hno' : ∀ st today, WsEvent.connect o st today ∉ es :=
      fun st today h => hno st today (List.mem_cons_of_mem _ h)
    have hchain : wsRun s (e :: es) = wsRun (wsStep s e) es := rfl
    have hstep : (wsStep s e).inbox o = [] ∧ o ∉ (wsStep s e).clients := by
      cases e with
      | connect o' st today =>
        have hne : o ≠ o' := by
          intro h
          subst h
          exact hno st today (List.mem_cons_self _ _)
        constructor
        · simp [wsStep, hne, h1]
        · simp [wsStep]
          exact ⟨hne, h2⟩
      | broadcast m =>
        constructor
        · simp [wsStep, h2, h1]
        · simpa [wsStep] using h2
      | disconnect o' =>
        exact ⟨h1, fun h => h2 (List.mem_of_mem_erase h)⟩
    rw [hchain]
    exact ih (wsStep s e) o hstep.1 hstep.2 hno'

/-- C8: in the event-serialized model of the fan-out channel, an observer
that connects after an arbitrary history not involving it receives the four
snapshot messages of `sendInitialData` as the very first messages of its
delivery sequence — before any broadcast — and those four are exactly one
each of the four snapshot types, in the source's order: aggregate stats,
platform list, most recent 10 messages, model metadata. -/
theorem C8_snapshot_before_broadcasts (pre post : List WsEvent) (o : Nat)
    (st : Store) (today : Int)
    (hfresh : ∀ st' today', WsEvent.connect o st' today' ∉ pre) :
    (∃ rest, (wsRun wsInit (pre ++ WsEvent.connect o st today :: post)).inbox o
        = initialMessages st today ++ rest) ∧
    (initialMessages st today).map WsMsg.type
      = [WsMsgType.statsUpdate, WsMsgType.platformStatus, WsMsgType.newMessage,
         WsMsgType.mlUpdate] ∧
    ([WsMsgType.statsUpdate, WsMsgType.platformStatus, WsMsgType.newMessage,
      WsMsgType.mlUpdate] : List WsMsgType).Nodup := by
  refine ⟨?_, rfl, by decide⟩
  have hrun : wsRun wsInit (pre ++ WsEvent.connect o st today :: post)
      = wsRun (wsStep (wsRun wsInit pre) (WsEvent.connect o st today)) post := by
    unfold wsRun
    rw [List.foldl_append, List.foldl_cons]
  have hempty : (wsRun wsInit pre).inbox o = [] :=
    (wsRun_not_connected pre wsInit o rfl (by simp [wsInit]) hfresh).1
  have hconn : (wsStep (wsRun wsInit pre) (WsEvent.connect o st today)).inbox o
      = initialMessages st today := by
    simp [wsStep, hempty]
  obtain ⟨r, hr⟩ :=
    wsRun_inbox_extends post (wsStep (wsRun wsInit pre) (WsEvent.connect o st today)) o
  exact ⟨r, by rw [hrun, hr, hconn]⟩

/-- C8 witness: the snapshot theorem applied at the empty history and the
seeded store. -/
theorem C8_snapshot_before_broadcasts_witness :
    ∃ rest, (wsRun wsInit ([] ++ WsEvent.connect 0 defaultStore 0 :: [])).inbox 0
      = initialMessages defaultStore 0 ++ rest :=
  (C8_snapshot_before_broadcasts [] [] 0 defaultStore 0 (by simp)).1

end Bot
